import Mathlib

/-!
Verification development for the receptionist_agent repository
(`agent.py`, `tools.py`).  The Python source is shallowly embedded:
pure functions become Lean functions, the flat-file domain store becomes
an explicit `Store` value threaded through the operations, Python
exceptions become `Except String`, and the two sources of ambient
nondeterminism (`uuid.uuid4()` and `datetime.now()`) become explicit
inputs (`uuid_draws`, `now`).
-/

namespace Receptionist

/-- A dynamically typed Python value as produced by the agent's argument
coercion (`agent.py`, `_extract_tool_calls`): a piece of an argument list is
either left as text, or coerced to `int`, or to `float`.  A parsed float
literal is kept exactly as `mantissa * 10 ^ exp10` (no claim compares or
computes with float values, so the decimal reading is not normalized). -/
inductive PyVal where
  | str (s : String)
  | int (n : Int)
  | float (mantissa : Int) (exp10 : Int)
  deriving DecidableEq, Repr

/-- The whitespace characters stripped by Python's `str.strip()` (ASCII
subset; the source never feeds non-ASCII whitespace to `strip`). -/
def isPySpace (c : Char) : Bool :=
  c = ' ' || c = '\t' || c = '\n' || c = '\r' || c = '\x0b' || c = '\x0c'

/-- Strip characters satisfying `p` from both ends of a character list:
the semantics of Python's `str.strip(chars)` (which removes *all* leading
and trailing characters drawn from the set, not a single layer). -/
def stripWhile (p : Char → Bool) (l : List Char) : List Char :=
  ((l.dropWhile p).reverse.dropWhile p).reverse

/-- The characters stripped by `strip('"\'')` in `_extract_tool_calls`. -/
def isQuoteChar (c : Char) : Bool := c = '"' || c = '\''

/-- Digits of a character list read as a natural number. -/
def digitsToNat (l : List Char) : Nat :=
  l.foldl (fun acc c => acc * 10 + (c.toNat - '0'.toNat)) 0

/-- Python's `int(s)` on a string: strip whitespace, optional sign, one or
more decimal digits; anything else raises `ValueError` (here: `none`).
(Python additionally allows underscores between digits and non-ASCII
digits; the agent never produces such pieces.) -/
def pyInt (s : String) : Option Int :=
  let l := stripWhile isPySpace s.toList
  let signRest : Int × List Char :=
    match l with
    | '+' :: t => (1, t)
    | '-' :: t => (-1, t)
    | t => (1, t)
  if signRest.2 ≠ [] ∧ signRest.2.all Char.isDigit then
    some (signRest.1 * (digitsToNat signRest.2 : Int))
  else none

/-- Exponent suffix of a Python float literal: `e`/`E`, optional sign,
one or more digits; or nothing.  Returns the exponent, or `none` when the
trailing characters do not form a valid (possibly empty) exponent. -/
def pyFloatExp : List Char → Option Int
  | [] => some 0
  | e :: rest =>
    if e = 'e' ∨ e = 'E' then
      let signRest : Int × List Char :=
        match rest with
        | '+' :: t => (1, t)
        | '-' :: t => (-1, t)
        | t => (1, t)
      if signRest.2 ≠ [] ∧ signRest.2.all Char.isDigit then
        some (signRest.1 * (digitsToNat signRest.2 : Int))
      else none
    else none

/-- Python's `float(s)` on a string: strip whitespace, optional sign, then
`digits`, `digits.digits?`, `.digits`, each with an optional exponent;
anything else raises `ValueError` (here: `none`).  (Python additionally
accepts `inf`/`nan` spellings and underscores; the agent never produces
such pieces.)  The value is returned as (mantissa, decimal exponent). -/
def pyFloat (s : String) : Option (Int × Int) :=
  let l := stripWhile isPySpace s.toList
  let signRest : Int × List Char :=
    match l with
    | '+' :: t => (1, t)
    | '-' :: t => (-1, t)
    | t => (1, t)
  let sign := signRest.1
  let intPart := signRest.2.takeWhile Char.isDigit
  let afterInt := signRest.2.dropWhile Char.isDigit
  match afterInt with
  | '.' :: r2 =>
    let fracPart := r2.takeWhile Char.isDigit
    let afterFrac := r2.dropWhile Char.isDigit
    if intPart = [] ∧ fracPart = [] then none
    else
      match pyFloatExp afterFrac with
      | some e =>
        some (sign * (digitsToNat (intPart ++ fracPart) : Int), e - (fracPart.length : Int))
      | none => none
  | _ =>
    if intPart = [] then none
    else
      match pyFloatExp afterInt with
      | some e => some (sign * (digitsToNat intPart : Int), e)
      | none => none

/-- The per-piece coercion of `_extract_tool_calls` (`agent.py` lines
108-115): a piece containing `.` is parsed as a float if possible, else
an integer if possible, else left as text. -/
def coerceArg (part : String) : PyVal :=
  if part.toList.contains '.' then
    match pyFloat part with
    | some q => PyVal.float q.1 q.2
    | none => PyVal.str part
  else
    match pyInt part with
    | some n => PyVal.int n
    | none => PyVal.str part

/-- Python's `s.split(',')`: split on every comma; adjacent commas and an
empty string yield empty pieces. -/
def splitOnComma : List Char → List (List Char)
  | [] => [[]]
  | ',' :: rest => [] :: splitOnComma rest
  | c :: rest =>
    match splitOnComma rest with
    | h :: t => (c :: h) :: t
    | [] => [[c]]

/-- Argument-list parsing of `_extract_tool_calls` (`agent.py` lines
100-117): an argument string that strips to empty yields no arguments;
otherwise it is split on every comma (no awareness of nested brackets or
quoted commas), each piece is stripped of whitespace, then of surrounding
single/double quote characters, then coerced. -/
def parseArgs (args_str : String) : List PyVal :=
  if stripWhile isPySpace args_str.toList = [] then []
  else
    (splitOnComma args_str.toList).map (fun arg =>
      coerceArg (String.mk (stripWhile isQuoteChar (stripWhile isPySpace arg))))

/-- A parsed tool invocation (the dict `{"tool_name": ..., "args": ...}`
built by `_extract_tool_calls`). -/
structure ToolInvocation where
  tool_name : String
  args : List PyVal
  deriving DecidableEq, Repr

/-- `\w` of the source's regexes (ASCII; the tool names in play are ASCII). -/
def isWordChar (c : Char) : Bool := c.isAlphanum || c = '_'

/-- Match a literal character sequence at the head of the input, returning
the remainder. -/
def dropLit : List Char → List Char → Option (List Char)
  | [], l => some l
  | _ :: _, [] => none
  | c :: cs, x :: xs => if c = x then dropLit cs xs else none

/-- Capture up to (not including) the first occurrence of `stop`, returning
the captured characters and the remainder after `stop`; `none` when `stop`
does not occur.  This is the non-greedy `(.*?)` followed by the literal
`stop`, under `re.DOTALL`. -/
def splitAtChar (stop : Char) : List Char → Option (List Char × List Char)
  | [] => none
  | c :: rest =>
    if c = stop then some ([], rest)
    else (splitAtChar stop rest).map (fun p => (c :: p.1, p.2))

/-- Capture up to the first occurrence of the two-character sequence `)]`,
returning the captured characters and the remainder after it: the
non-greedy `(.*?)\)\]` of the bracketed pattern. -/
def splitAtParenBracket : List Char → Option (List Char × List Char)
  | ')' :: ']' :: rest => some ([], rest)
  | c :: rest => (splitAtParenBracket rest).map (fun p => (c :: p.1, p.2))
  | [] => none

/-- Attempt the pattern `TOOL:\s*(\w+)\((.*?)\)` at the head of the input:
the literal `TOOL:`, any whitespace, a nonempty word-character name, `(`,
then a lazy capture up to the first `)`.  On success returns the two
capture groups and the remainder after the match. -/
def matchToolAt (l : List Char) : Option ((String × String) × List Char) :=
  match dropLit "TOOL:".toList l with
  | none => none
  | some r1 =>
    let r2 := r1.dropWhile isPySpace
    let name := r2.takeWhile isWordChar
    if name = [] then none
    else
      match r2.dropWhile isWordChar with
      | '(' :: r3 =>
        match splitAtChar ')' r3 with
        | some (content, rest) => some ((String.mk name, String.mk content), rest)
        | none => none
      | _ => none

/-- Attempt the pattern `\[(\w+)\((.*?)\)\]` at the head of the input:
`[`, a nonempty word-character name, `(`, a lazy capture up to the first
`)]`.  On success returns the two capture groups and the remainder. -/
def matchBracketAt (l : List Char) : Option ((String × String) × List Char) :=
  match l with
  | '[' :: r1 =>
    let name := r1.takeWhile isWordChar
    if name = [] then none
    else
      match r1.dropWhile isWordChar with
      | '(' :: r2 =>
        match splitAtParenBracket r2 with
        | some (content, rest) => some ((String.mk name, String.mk content), rest)
        | none => none
      | _ => none
  | _ => none

/-- The scan loop of `re.findall`: try the pattern at the current position;
on success record the groups and continue after the match, otherwise
advance one character.  `fuel` bounds the number of steps; every step
consumes at least one character, so `fuel := input length` is exact. -/
def findallAux (pat : List Char → Option ((String × String) × List Char)) :
    Nat → List Char → List (String × String)
  | 0, _ => []
  | _, [] => []
  | fuel + 1, c :: t =>
    match pat (c :: t) with
    | some (m, rest) => m :: findallAux pat fuel rest
    | none => findallAux pat fuel t

/-- `re.findall(pattern, s, re.DOTALL)` for one of the two tool patterns. -/
def refindall (pat : List Char → Option ((String × String) × List Char))
    (s : String) : List (String × String) :=
  findallAux pat s.toList.length s.toList

/-- Build the invocation record from one regex match (name, argument
string).  Argument parsing in the source sits inside a `try`, but no
statement in it can raise (the numeric conversions catch their own
`ValueError`), so every match yields an invocation. -/
def toInvocation (m : String × String) : ToolInvocation :=
  { tool_name := m.1, args := parseArgs m.2 }

/-- `_extract_tool_calls` (`agent.py` lines 82-127): collect all matches of
the `TOOL: name(args)` pattern, then all matches of the `[name(args)]`
pattern (the two `findall` results are concatenated pattern-first, not
interleaved by position), and parse each match's argument string. -/
def extract_tool_calls (response : String) : List ToolInvocation :=
  (refindall matchToolAt response ++ refindall matchBracketAt response).map toInvocation

/-! ## Domain store (`tools.py`)

The JSON files (`data/business_info.json`, `data/services.json`,
`data/calendar.json`, `appointments.json`) become fields of a `Store`
value.  A JSON object key that may be absent becomes an `Option` field;
a missing file loads as an empty object (all fields `none` / empty list),
exactly as `load_json_file` returns `{}` on `FileNotFoundError`. -/

/-- Contents of `data/business_info.json` as `get_business_info` reads it:
each key the code accesses, absent keys modelled by `none`.  Values are
kept as their rendered text. -/
structure BusinessData where
  name : Option String := none
  address : Option String := none
  phone : Option String := none
  working_hours : Option String := none
  hours : Option String := none
  timezone : Option String := none
  deriving DecidableEq, Repr

/-- One entry of the service catalog (`data/services.json`).  The values
are external data of the store, kept as their rendered text (the code only
interpolates them into reply strings). -/
structure Service where
  name : String
  price : String
  duration_minutes : String
  deriving DecidableEq, Repr

/-- Contents of `data/services.json`: the code reads only the `services`
key, with `.get("services", [])`. -/
structure ServicesFile where
  services : Option (List Service) := none
  deriving DecidableEq, Repr

/-- One date's entry in `data/calendar.json`.  Both keys are read with
`.get(..., [])` in `check_availability`, and `book_appointment` creates
`booked_slots` when absent, so each is an `Option`. -/
structure DayData where
  available_slots : Option (List String) := none
  booked_slots : Option (List String) := none
  deriving DecidableEq, Repr

/-- The `customer` sub-record of an appointment.  `book_appointment` passes
its arguments through untyped, so the fields hold `PyVal`s. -/
structure Customer where
  name : PyVal
  phone : PyVal
  email : PyVal
  deriving DecidableEq, Repr

/-- The `appointment` sub-record of an appointment. -/
structure ApptDetails where
  date : String
  time : String
  services : PyVal
  total_price : PyVal
  duration_minutes : PyVal
  deriving DecidableEq, Repr

/-- One record of `appointments.json` as `book_appointment` builds it. -/
structure Appointment where
  id : String
  customer : Customer
  appointment : ApptDetails
  created_at : String
  status : String
  deriving DecidableEq, Repr

/-- The union of every key a tool's returned dictionary can carry.  Each
Python tool returns a dict; a key it does not set is `none` here, so the
formatter's `in`/`.get` tests translate directly. -/
structure ToolOutput where
  working_hours : Option String := none
  detailed_hours : Option String := none
  timezone : Option String := none
  phone : Option String := none
  name : Option String := none
  address : Option String := none
  hours : Option String := none
  error : Option String := none
  services : Option (List Service) := none
  available : Option Bool := none
  available_slots : Option (List String) := none
  duration_minutes : Option Int := none
  date : Option String := none
  message : Option String := none
  success : Option Bool := none
  appointment_id : Option String := none
  appointment : Option Appointment := none
  deriving DecidableEq, Repr

/-- The whole persisted state plus the two ambient effects the tools use:
`now` models `datetime.now().isoformat()` and `uuid_draws` the successive
values of `str(uuid.uuid4())`. -/
structure Store where
  business : BusinessData := {}
  servicesData : ServicesFile := {}
  calendar : List (String × DayData) := []
  appointments : List Appointment := []
  now : String := ""
  uuid_draws : List String := []
  deriving DecidableEq, Repr

/-- Python dict lookup (`calendar_data[date]` / `date in calendar_data`)
on the calendar, modelled as first-match lookup in an association list. -/
def dictLookup {α : Type} : List (String × α) → String → Option α
  | [], _ => none
  | e :: rest, key => if e.1 = key then some e.2 else dictLookup rest key

/-- Reading a required dict key: `d[k]` raises `KeyError` when `k` is
absent; the executor catches it. -/
def getKey {α : Type} (v : Option α) (k : String) : Except String α :=
  match v with
  | some x => Except.ok x
  | none => Except.error ("KeyError: " ++ k)

/-! ## Tools (`tools.py`) -/

/-- `get_business_info` (`tools.py` lines 30-61).  An unrecognized
`info_type` yields `{"error": ...}` as a *result*; a missing key of the
business file raises `KeyError` (caught later by the executor). -/
def get_business_info (info_type : String) (business_data : BusinessData) :
    Except String ToolOutput :=
  if info_type = "hours" then do
    let wh ← getKey business_data.working_hours "working_hours"
    let dh ← getKey business_data.hours "hours"
    let tz ← getKey business_data.timezone "timezone"
    return { working_hours := some wh, detailed_hours := some dh, timezone := some tz }
  else if info_type = "contact" then do
    let p ← getKey business_data.phone "phone"
    let n ← getKey business_data.name "name"
    return { phone := some p, name := some n }
  else if info_type = "address" then do
    let a ← getKey business_data.address "address"
    let n ← getKey business_data.name "name"
    return { address := some a, name := some n }
  else if info_type = "all" then
    return { name := business_data.name, address := business_data.address,
             phone := business_data.phone, working_hours := business_data.working_hours,
             hours := business_data.hours, timezone := business_data.timezone }
  else
    return { error := some ("Unknown info type: " ++ info_type) }

/-- `get_services` (`tools.py` lines 64-71): returns the loaded services
file as-is. -/
def get_services (st : Store) : ToolOutput :=
  { services := st.servicesData.services }

/-- The filtered slot list of `check_availability` (`tools.py` line 99):
`available_slots` with every member of `booked_slots` removed, order
preserved. -/
def truly_available_of (day_data : DayData) : List String :=
  (day_data.available_slots.getD []).filter
    (fun slot => !((day_data.booked_slots.getD []).contains slot))

/-- `check_availability` (`tools.py` lines 74-124).  All slots are treated
as 30-minute units; for a duration over 30 minutes the code scans the
filtered slot list in list order, with no check of chronological
adjacency, and returns each window's first element.  (`//` is Python floor
division; both operands are positive on the `> 30` branch, where Lean's
`Int` division agrees.) -/
def check_availability (date : String) (duration_minutes : Int)
    (calendar_data : List (String × DayData)) : ToolOutput :=
  match dictLookup calendar_data date with
  | none =>
    { available := some false,
      message := some ("No calendar data available for " ++ date),
      available_slots := some [] }
  | some day_data =>
    let truly_available := truly_available_of day_data
    let slot_duration : Int := 30
    let suitable_slots :=
      if duration_minutes ≤ slot_duration then truly_available
      else
        let slots_needed : Nat := ((duration_minutes + slot_duration - 1) / slot_duration).toNat
        (List.range (truly_available.length + 1 - slots_needed)).filterMap (fun i =>
          let consecutive_slots := (truly_available.drop i).take slots_needed
          if consecutive_slots.length = slots_needed then consecutive_slots.head? else none)
    { available := some (decide (0 < suitable_slots.length)),
      available_slots := some suitable_slots,
      duration_minutes := some duration_minutes,
      date := some date,
      message := some ("Found " ++ toString suitable_slots.length ++
        " available slots for " ++ toString duration_minutes ++ " minutes") }

/-- The identifier generation of `book_appointment` (`tools.py` line 154):
`f"APT-{date.replace('-', '')}-{str(uuid.uuid4())[:3].upper()}"`, with the
random draw `str(uuid.uuid4())` made an explicit argument. -/
def generate_appointment_id (date : String) (uuid_draw : String) : String :=
  "APT-" ++ String.mk (date.toList.filter (fun c => c ≠ '-')) ++ "-" ++
    String.mk ((uuid_draw.toList.take 3).map Char.toUpper)

/-- `book_appointment` (`tools.py` lines 127-199): build the appointment
record, append it to the appointment list, and — only when the date exists
in the calendar — append `time` to that day's `booked_slots` (creating the
key when absent).  No check against `available_slots` or double booking is
performed.  Returns the result dict and the updated store. -/
def book_appointment (customer_name customer_phone customer_email : PyVal)
    (date time : String) (services total_price duration_minutes : PyVal)
    (uuid_draw : String) (st : Store) : ToolOutput × Store :=
  let appointment_id := generate_appointment_id date uuid_draw
  let appointment : Appointment :=
    { id := appointment_id,
      customer := { name := customer_name, phone := customer_phone, email := customer_email },
      appointment := { date := date, time := time, services := services,
                       total_price := total_price, duration_minutes := duration_minutes },
      created_at := st.now,
      status := "confirmed" }
  let appointments := st.appointments ++ [appointment]
  let calendar_data :=
    if (dictLookup st.calendar date).isSome then
      st.calendar.map (fun entry =>
        if entry.1 = date then
          (entry.1, { entry.2 with booked_slots := some (entry.2.booked_slots.getD [] ++ [time]) })
        else entry)
    else st.calendar
  ({ success := some true,
     appointment_id := some appointment_id,
     appointment := some appointment,
     message := some ("Appointment " ++ appointment_id ++ " successfully booked for " ++
       date ++ " at " ++ time) },
   { st with appointments := appointments, calendar := calendar_data })

/-- `send_email_confirmation` (`tools.py` lines 202-221): a stub that
always reports success. -/
def send_email_confirmation (appointment_id : String) (customer_email : String) : ToolOutput :=
  { success := some true,
    message := some ("Confirmation email sent to " ++ customer_email),
    appointment_id := some appointment_id }

/-! ## Tool registry and executor (`tools.py` lines 225-268, `agent.py`
`_execute_tool`) -/

/-- The names registered in `AVAILABLE_TOOLS`. -/
def AVAILABLE_TOOLS : List String :=
  ["get_business_info", "get_services", "check_availability",
   "book_appointment", "send_email_confirmation"]

/-- Rendering of a `PyVal` into an f-string (`f"{v}"`).  Floats are
rendered in mantissa/exponent form; no claim depends on Python's float
`repr`. -/
def pyValStr : PyVal → String
  | PyVal.str s => s
  | PyVal.int n => toString n
  | PyVal.float m e => toString m ++ "e" ++ toString e

/-- Positional dispatch to the registered callables: a wrong argument
count raises `TypeError` (caught by the executor), matching
`tool_function(*args)`.  Arguments whose Python dynamic type the callable
could not consume without raising are mapped to a `TypeError` as well; the
claims only exercise well-typed and unknown-name calls. -/
def callTool (tool_name : String) (args : List PyVal) (st : Store) :
    Except String (ToolOutput × Store) :=
  if tool_name = "get_business_info" then
    match args with
    | [a] => (get_business_info (pyValStr a) st.business).map (fun o => (o, st))
    | _ => Except.error "TypeError: get_business_info() takes 1 positional argument"
  else if tool_name = "get_services" then
    match args with
    | [] => Except.ok (get_services st, st)
    | _ => Except.error "TypeError: get_services() takes 0 positional arguments"
  else if tool_name = "check_availability" then
    match args with
    | [PyVal.str date, PyVal.int d] => Except.ok (check_availability date d st.calendar, st)
    | [_, _] => Except.error "TypeError: unsupported argument types"
    | _ => Except.error "TypeError: check_availability() takes 2 positional arguments"
  else if tool_name = "book_appointment" then
    match args with
    | [n, p, e, PyVal.str date, PyVal.str time, sv, tp, dm] =>
      let draw := st.uuid_draws.headD ""
      let st1 := { st with uuid_draws := st.uuid_draws.tail }
      Except.ok (book_appointment n p e date time sv tp dm draw st1)
    | [_, _, _, _, _, _, _, _] => Except.error "TypeError: unsupported argument types"
    | _ => Except.error "TypeError: book_appointment() takes 8 positional arguments"
  else if tool_name = "send_email_confirmation" then
    match args with
    | [a, b] => Except.ok (send_email_confirmation (pyValStr a) (pyValStr b), st)
    | _ => Except.error "TypeError: send_email_confirmation() takes 2 positional arguments"
  else
    Except.error "unreachable: name checked against the registry"

/-- The executor's result envelope: a Python dict with these possible
keys; a key the code did not set is `none` (absent). -/
structure ExecResult where
  success : Option Bool := none
  result : Option ToolOutput := none
  error : Option String := none
  tool_name : Option String := none
  deriving DecidableEq, Repr

/-- `_execute_tool` (`agent.py` lines 129-163).  A name missing from the
registry returns `{"error": f"Unknown tool: {tool_name}"}` — with *no*
`success` and no `tool_name` key.  A registered callable's result is
wrapped in `{"success": True, "result": ..., "tool_name": ...}`; an
exception it raises is caught into
`{"success": False, "error": ..., "tool_name": ...}`. -/
def execute_tool (tool_name : String) (args : List PyVal) (st : Store) :
    ExecResult × Store :=
  if !(AVAILABLE_TOOLS.contains tool_name) then
    ({ error := some ("Unknown tool: " ++ tool_name) }, st)
  else
    match callTool tool_name args st with
    | Except.ok (result, st1) =>
      ({ success := some true, result := some result, tool_name := some tool_name }, st1)
    | Except.error e =>
      ({ success := some false, error := some e, tool_name := some tool_name }, st)

/-! ## Response interpreter and result formatter (`agent.py`) -/

/-- `needle` occurs contiguously in `haystack` (Python's `in` on strings). -/
def isPrefixList : List Char → List Char → Bool
  | [], _ => true
  | _ :: _, [] => false
  | c :: cs, x :: xs => c = x && isPrefixList cs xs

/-- Substring occurrence test for Python's `keyword in user_lower`. -/
def containsSub (needle : List Char) : List Char → Bool
  | [] => needle.isEmpty
  | l@(_ :: t) => isPrefixList needle l || containsSub needle t

/-- The keyword list of `_should_use_tools` (`agent.py` lines 176-181),
character-for-character as it stands in the source file (the file holds
mojibake for the intended Turkish words). -/
def tool_keywords : List String :=
  ["randevu", "appointment", "book", "rezervasyon",
   "fiyat", "price", "hizmet", "service",
   "m√ºsait", "available", "saat", "time",
   "√ßalƒ±≈üma saatleri", "hours", "ileti≈üim", "contact"]

/-- Python's `str.lower()` character by character (ASCII letters; the
keyword set's non-ASCII characters have no uppercase forms in play). -/
def pyLower (s : String) : String := String.mk (s.toList.map Char.toLower)

/-- `_should_use_tools` (`agent.py` lines 165-184): case-insensitive
substring match of any keyword anywhere in the message. -/
def should_use_tools (user_message : String) : Bool :=
  let user_lower := pyLower user_message
  tool_keywords.any (fun keyword => containsSub keyword.toList user_lower.toList)

/-- One service line of the catalog rendering (`agent.py` line 240). -/
def render_service (service : Service) : String :=
  "‚úÇÔ∏è " ++ service.name ++ " - $" ++ service.price ++
    " (" ++ service.duration_minutes ++ " min)"

/-- Python's `', '.join(x)`: over a string it joins the *characters*; over
a non-string (int/float) it raises `TypeError`.  The appointment record's
`services` field holds whatever `PyVal` the extractor produced. -/
def pyJoinComma : PyVal → Except String String
  | PyVal.str s => Except.ok (String.intercalate ", " (s.toList.map (fun c => String.mk [c])))
  | _ => Except.error "TypeError: can only join an iterable"

/-- The loop body of `_process_tool_results` (`agent.py` lines 227-285)
for one tool result: the list of reply lines it appends, or the exception
it raises (an absent dict key).  A successful result of a tool with no
rendering branch (e.g. `send_email_confirmation`) appends nothing. -/
def render_result (tool_result : ExecResult) : Except String (List String) :=
  match tool_result.success with
  | none => Except.error "KeyError: success"
  | some success =>
  if !success then
    match tool_result.tool_name with
    | none => Except.error "KeyError: tool_name"
    | some tn =>
    match tool_result.error with
    | none => Except.error "KeyError: error"
    | some err =>
    Except.ok ["Error with " ++ tn ++ ": " ++ err]
  else
    match tool_result.result with
    | none => Except.error "KeyError: result"
    | some result =>
    match tool_result.tool_name with
    | none => Except.error "KeyError: tool_name"
    | some tool_name =>
    if tool_name = "get_services" then
      let services := result.services.getD []
      if !services.isEmpty then
        Except.ok ("Here are our services and prices:" :: services.map render_service ++
          ["\nWould you like to book an appointment?"])
      else
        Except.ok ["Sorry, there was an issue retrieving our services."]
    else if tool_name = "check_availability" then
      if result.available.getD false then
        let slots := result.available_slots.getD []
        let duration := result.duration_minutes.getD 0
        let date := result.date.getD ""
        Except.ok (("Here are our available times for " ++ date ++ " for a " ++
            toString duration ++ "-minute appointment:")
          :: (slots.take 10).map (fun slot => "- " ++ slot)
          ++ (if 10 < slots.length then
                ["... and " ++ toString (slots.length - 10) ++ " more times"]
              else [])
          ++ ["\nWhich time works best for you?"])
      else
        Except.ok ["Sorry, we don't have any available slots for " ++ result.date.getD "" ++ ".",
                   "Would you like to try a different date?"]
    else if tool_name = "book_appointment" then
      if result.success.getD false then
        -- `.get("appointment", {})` followed by `['appointment']` on the
        -- empty default raises KeyError exactly when the key is absent.
        match result.appointment with
        | none => Except.error "KeyError: appointment"
        | some appointment =>
          let appointment_id := result.appointment_id.getD ""
          match pyJoinComma appointment.appointment.services with
          | Except.error e => Except.error e
          | Except.ok services_str =>
          Except.ok ["üéâ Your appointment has been successfully booked!",
                     "üìÖ Date: " ++ appointment.appointment.date,
                     "üïê Time: " ++ appointment.appointment.time,
                     "‚úÇÔ∏è Services: " ++ services_str,
                     "üí∞ Total: $" ++ pyValStr appointment.appointment.total_price,
                     "‚è±Ô∏è Duration: " ++ pyValStr appointment.appointment.duration_minutes ++
                       " minutes",
                     "üÜî Appointment ID: " ++ appointment_id,
                     "\nI've sent a confirmation email to your address. Is there anything else I can help you with?"]
      else
        Except.ok ["Sorry, there was an error creating your appointment. Please try again."]
    else if tool_name = "get_business_info" then
      match result.working_hours with
      | some wh => Except.ok ["Our business hours: " ++ wh]
      | none =>
        match result.phone with
        | some p => Except.ok ["Contact us: " ++ p]
        | none =>
          match result.address with
          | some a => Except.ok ["Address: " ++ a]
          | none => Except.ok ["Sorry, there was an issue retrieving our business information."]
    else
      Except.ok []

/-- The formatter loop: per-result lines concatenated in input order; the
first raised exception aborts the whole call, as in Python. -/
def render_all : List ExecResult → Except String (List String)
  | [] => Except.ok []
  | r :: rest =>
    match render_result r with
    | Except.error e => Except.error e
    | Except.ok lines =>
      match render_all rest with
      | Except.error e => Except.error e
      | Except.ok restLines => Except.ok (lines ++ restLines)

/-- `_process_tool_results` (`agent.py` lines 212-287): empty input yields
the fixed fallback sentence; otherwise the collected lines are joined with
single newlines. -/
def process_tool_results (tool_results : List ExecResult) : Except String String :=
  if tool_results.isEmpty then
    Except.ok "I didn't find any specific information to help you with."
  else
    (render_all tool_results).map (fun parts => String.intercalate "\n" parts)

/-! ## Conversational agent (`agent.py`, `chat` / `reset_conversation`) -/

/-- One entry of `self.conversation_history`. -/
structure ConvTurn where
  role : String
  content : String
  deriving DecidableEq, Repr

/-- Execute the extracted invocations in order, threading the store
(`agent.py` lines 315-322). -/
def run_tools : List ToolInvocation → Store → List ExecResult × Store
  | [], st => ([], st)
  | tc :: rest, st =>
    let (result, st1) := execute_tool tc.tool_name tc.args st
    let (results, st2) := run_tools rest st1
    (result :: results, st2)

/-- `chat` (`agent.py` lines 289-336).  The model call is an oracle input
`ai_response` (`_call_openai` returns either the reply or an apology
string; no exception crosses that boundary).  The user turn is appended
first; the assistant turn is appended only if the turn completes — the
formatter can raise (`Except.error`), and then the exception propagates
out of `chat` with the history left holding the lone user entry. -/
def chat (st : Store) (conversation_history : List ConvTurn)
    (user_message : String) (ai_response : String) :
    List ConvTurn × Store × Except String String :=
  let history1 := conversation_history ++ [{ role := "user", content := user_message }]
  if should_use_tools user_message then
    let tool_calls := extract_tool_calls ai_response
    if !tool_calls.isEmpty then
      let (tool_results, st1) := run_tools tool_calls st
      match process_tool_results tool_results with
      | Except.ok final_response =>
        (history1 ++ [{ role := "assistant", content := final_response }], st1,
          Except.ok final_response)
      | Except.error e => (history1, st1, Except.error e)
    else
      (history1 ++ [{ role := "assistant", content := ai_response }], st,
        Except.ok ai_response)
  else
    (history1 ++ [{ role := "assistant", content := ai_response }], st,
      Except.ok ai_response)

/-- `reset_conversation` (`agent.py` lines 338-341): the history becomes
empty unconditionally. -/
def reset_conversation : List ConvTurn := []

/-! ## Claims -/

/-- C1 (code_bug evaluation): for the unregistered name `deleteAppointment`
and every argument list, `_execute_tool` returns without raising and leaves
the store untouched, and the returned dict's `error` entry is
`"Unknown tool: deleteAppointment"` — but, contrary to the claim (and to
the envelope its own consumer `_process_tool_results` requires), the dict
carries *no* `success: false` entry (and no `tool_name`). -/
theorem execute_tool_unknown_tool_envelope (args : List PyVal) (st : Store) :
    (execute_tool "deleteAppointment" args st).1 =
      { success := none, result := none,
        error := some "Unknown tool: deleteAppointment", tool_name := none } ∧
    (execute_tool "deleteAppointment" args st).2 = st :=
  ⟨rfl, rfl⟩

/-- C7: `_extract_tool_calls` returns all `TOOL:`-form matches (in order
of occurrence) followed by all bracketed-form matches (in order of
occurrence), not the matches interleaved by position in the text: the
result is always the concatenation of the two `findall` passes, and on a
text where the bracketed call occurs first the `TOOL:`-form call is
nevertheless returned first. -/
theorem extract_tool_calls_pattern_order :
    (∀ response : String,
      extract_tool_calls response =
        (refindall matchToolAt response).map toInvocation ++
          (refindall matchBracketAt response).map toInvocation) ∧
    extract_tool_calls "[alpha()] TOOL: beta()" =
      [{ tool_name := "beta", args := [] }, { tool_name := "alpha", args := [] }] :=
  ⟨fun response => by simp [extract_tool_calls], by decide⟩

/-- C8: for a date absent from the calendar data (including the
missing-file case, which loads as the empty mapping), `check_availability`
returns `available = false`, an empty slot list, and a message string
containing the requested date; the embedded operation is total, so no
exception is raised. -/
theorem check_availability_unknown_date (calendar_data : List (String × DayData))
    (date : String) (duration_minutes : Int)
    (h : dictLookup calendar_data date = none) :
    (check_availability date duration_minutes calendar_data).available = some false ∧
    (check_availability date duration_minutes calendar_data).available_slots = some [] ∧
    ∃ p s, (check_availability date duration_minutes calendar_data).message =
      some (p ++ date ++ s) := by
  unfold check_availability
  rw [h]
  exact ⟨rfl, rfl, "No calendar data available for ", "", by simp⟩

/-- Witness for C8 at the spec's own scenario: the empty calendar (a
missing `data/calendar.json`) and the date `2099-01-01`. -/
theorem check_availability_unknown_date_witness :
    dictLookup ([] : List (String × DayData)) "2099-01-01" = none ∧
    ((check_availability "2099-01-01" 30 []).available = some false ∧
     (check_availability "2099-01-01" 30 []).available_slots = some [] ∧
     ∃ p s, (check_availability "2099-01-01" 30 []).message =
       some (p ++ "2099-01-01" ++ s)) :=
  ⟨rfl, check_availability_unknown_date [] "2099-01-01" 30 rfl⟩

/-- C10 (code_bug evaluation): a turn whose user message triggers the tool
path and whose model reply names an unregistered tool makes
`_process_tool_results` read the absent `success` key of the unknown-tool
envelope; the `KeyError` propagates out of `chat`, which therefore appends
only the user entry — the history ends with odd length, contradicting the
claim that every `chat` call appends exactly two entries. -/
theorem chat_unknown_tool_keyerror :
    (chat {} [] "Can I book a haircut?" "TOOL: deleteAppointment()").1 =
      [{ role := "user", content := "Can I book a haircut?" }] ∧
    (chat {} [] "Can I book a haircut?" "TOOL: deleteAppointment()").2.2 =
      Except.error "KeyError: success" :=
  ⟨rfl, rfl⟩

/-- The persisted-calendar invariant of the spec's data model:
`booked_slots ⊆ available_slots` on every date. -/
def calendarInvariant (cal : List (String × DayData)) : Prop :=
  ∀ e ∈ cal, ∀ t ∈ e.2.booked_slots.getD [], t ∈ e.2.available_slots.getD []

instance (cal : List (String × DayData)) : Decidable (calendarInvariant cal) :=
  inferInstanceAs (Decidable (∀ e ∈ cal, ∀ t ∈ e.2.booked_slots.getD [],
    t ∈ e.2.available_slots.getD []))

/-- A calendar with one open day, used by the C2 theorems. -/
def c2Store : Store :=
  { calendar := [("2025-06-02",
      { available_slots := some ["10:00", "10:30"], booked_slots := some [] })],
    now := "2025-06-01T09:00:00" }

/-- C2 counterexample: booking the time `99:99` — not among the day's
`available_slots` — on a state satisfying `booked_slots ⊆ available_slots`
yields a state violating it: `book_appointment` appends the time with no
membership check, so the invariant is not preserved for an arbitrary time
argument. -/
theorem book_appointment_breaks_subset_invariant :
    calendarInvariant c2Store.calendar ∧
    ¬ calendarInvariant
      ((book_appointment (PyVal.str "Jane") (PyVal.str "555-1111") (PyVal.str "jane@x.com")
        "2025-06-02" "99:99" (PyVal.str "Haircut") (PyVal.int 40) (PyVal.int 30)
        "0a1bcdef" c2Store).2.calendar) :=
  ⟨by decide, by decide⟩

/-- C2 amended: the `booked_slots ⊆ available_slots` invariant is preserved
by `book_appointment` *provided* the booked time is already a member of
that date's `available_slots` (on every calendar entry carrying that date);
the code itself performs no such check, so an arbitrary time argument can
break the invariant (see the counterexample).  The read-only operations do
not touch the calendar, so the booking operation is the only one at issue. -/
theorem book_appointment_preserves_subset_invariant
    (st : Store) (cn cp ce sv tp dm : PyVal) (date time draw : String)
    (hinv : calendarInvariant st.calendar)
    (htime : ∀ e ∈ st.calendar, e.1 = date → time ∈ e.2.available_slots.getD []) :
    calendarInvariant
      ((book_appointment cn cp ce date time sv tp dm draw st).2.calendar) := by
  unfold book_appointment calendarInvariant
  dsimp only
  by_cases hsome : (dictLookup st.calendar date).isSome
  · rw [if_pos hsome]
    intro e he t ht
    rcases List.mem_map.mp he with ⟨a, ha, rfl⟩
    by_cases hd : a.1 = date
    · rw [if_pos hd] at ht ⊢
      dsimp only at ht ⊢
      have ht' : t ∈ a.2.booked_slots.getD [] ∨ t = time := by simpa using ht
      rcases ht' with hold | rfl
      · exact hinv a ha t hold
      · exact htime a ha hd
    · rw [if_neg hd] at ht ⊢
      exact hinv a ha t ht
  · rw [if_neg hsome]
    exact hinv

/-- Witness for the amended C2 theorem: booking the genuinely available
time `10:00` on the same one-day calendar preserves the invariant. -/
theorem book_appointment_preserves_subset_invariant_witness :
    calendarInvariant c2Store.calendar ∧
    (∀ e ∈ c2Store.calendar, e.1 = "2025-06-02" →
      "10:00" ∈ e.2.available_slots.getD []) ∧
    calendarInvariant
      ((book_appointment (PyVal.str "Jane") (PyVal.str "555-1111") (PyVal.str "jane@x.com")
        "2025-06-02" "10:00" (PyVal.str "Haircut") (PyVal.int 40) (PyVal.int 30)
        "0a1bcdef" c2Store).2.calendar) :=
  ⟨by decide, by decide,
    book_appointment_preserves_subset_invariant c2Store (PyVal.str "Jane")
      (PyVal.str "555-1111") (PyVal.str "jane@x.com") (PyVal.str "Haircut")
      (PyVal.int 40) (PyVal.int 30) "2025-06-02" "10:00" "0a1bcdef"
      (by decide) (by decide)⟩

/-- The store after two same-date bookings whose uuid draws are distinct
but share their first three characters. -/
def c3Store : Store :=
  (book_appointment (PyVal.str "B") (PyVal.str "2") (PyVal.str "b@x.com")
    "2025-06-02" "10:30" (PyVal.str "Shave") (PyVal.int 25) (PyVal.int 30) "0a1bcdef"
    ((book_appointment (PyVal.str "A") (PyVal.str "1") (PyVal.str "a@x.com")
      "2025-06-02" "10:00" (PyVal.str "Haircut") (PyVal.int 40) (PyVal.int 30) "0a1xyzuv"
      ({ now := "2025-06-01T09:00:00" } : Store)).2)).2

/-- C3 counterexample: two successful bookings on the same date whose
(distinct) uuid draws share the first three characters produce identical
appointment ids, so the persisted collection can hold two appointments
with the same id: `APT-<date digits>-<3 chars>` offers only three random
characters of entropy and uniqueness is not guaranteed. -/
theorem duplicate_appointment_ids_possible :
    (c3Store.appointments.map (fun a => a.id)) =
      ["APT-20250602-0A1", "APT-20250602-0A1"] ∧
    ¬ (c3Store.appointments.map (fun a => a.id)).Nodup :=
  ⟨by decide, by decide⟩

/-- C3 amended: appointment ids are not unique over all random draws; two
generated ids (for draws of the usual `str(uuid.uuid4())` shape, which has
at least three characters) coincide exactly when the two dates agree after
removing hyphens and the two uppercased three-character draw prefixes
agree.  Distinctness therefore holds only conditionally, and same-date
draws with a shared three-character prefix collide. -/
theorem generate_appointment_id_eq_iff (d1 d2 r1 r2 : String)
    (h1 : 3 ≤ r1.toList.length) (h2 : 3 ≤ r2.toList.length) :
    generate_appointment_id d1 r1 = generate_appointment_id d2 r2 ↔
      (d1.toList.filter (fun c => c ≠ '-') = d2.toList.filter (fun c => c ≠ '-') ∧
       (r1.toList.take 3).map Char.toUpper = (r2.toList.take 3).map Char.toUpper) := by
  unfold generate_appointment_id
  constructor
  · intro h
    have hdata := congrArg String.data h
    simp only [String.data_append, List.append_assoc, List.singleton_append] at hdata
    have hdata2 := List.append_cancel_left hdata
    have hlens : ('-' :: (r1.toList.take 3).map Char.toUpper).length
        = ('-' :: (r2.toList.take 3).map Char.toUpper).length := by
      simp only [List.length_cons, List.length_map, List.length_take]
      omega
    rcases List.append_inj' hdata2 hlens with ⟨hf, hu⟩
    refine ⟨hf, ?_⟩
    injection hu
  · intro hfu
    rw [hfu.1, hfu.2]

/-- Witness for the amended C3 theorem at concrete draws: same date, draws
`0a1xyzuv` and `0a1bcdef` — the iff instantiates, and both sides hold. -/
theorem generate_appointment_id_eq_iff_witness :
    3 ≤ ("0a1xyzuv" : String).toList.length ∧
    3 ≤ ("0a1bcdef" : String).toList.length ∧
    (generate_appointment_id "2025-06-02" "0a1xyzuv" =
        generate_appointment_id "2025-06-02" "0a1bcdef" ↔
      (("2025-06-02" : String).toList.filter (fun c => c ≠ '-') =
          ("2025-06-02" : String).toList.filter (fun c => c ≠ '-') ∧
       (("0a1xyzuv" : String).toList.take 3).map Char.toUpper =
          (("0a1bcdef" : String).toList.take 3).map Char.toUpper)) :=
  ⟨by decide, by decide,
    generate_appointment_id_eq_iff "2025-06-02" "2025-06-02" "0a1xyzuv" "0a1bcdef"
      (by decide) (by decide)⟩

/-- The argument string of C6's fixed invocation, exactly as the `TOOL:`
pattern captures it. -/
def c6ArgString : String :=
  "\"Jane Doe\",\"555-1111\",\"jane@x.com\",\"2025-06-02\",\"10:00\",[\"Haircut\"],45,30"

/-- C6: on any model text whose two pattern scans find exactly the fixed
`TOOL: bookAppointment(...)` invocation (the formalization of "contains
the literal and no other tool syntax"), extraction yields exactly one
invocation named `bookAppointment` with eight positionally-ordered
arguments: `45` and `30` coerced to integers, the other six pieces
quote-stripped and left as text (the bracketed piece `["Haircut"]`, having
no surrounding quotes, is left unchanged). -/
theorem extract_tool_calls_book_literal (text : String)
    (h1 : refindall matchToolAt text = [("bookAppointment", c6ArgString)])
    (h2 : refindall matchBracketAt text = []) :
    extract_tool_calls text =
      [{ tool_name := "bookAppointment",
         args := [PyVal.str "Jane Doe", PyVal.str "555-1111", PyVal.str "jane@x.com",
                  PyVal.str "2025-06-02", PyVal.str "10:00", PyVal.str "[\"Haircut\"]",
                  PyVal.int 45, PyVal.int 30] }] := by
  unfold extract_tool_calls
  rw [h1, h2]
  decide

/-- A concrete model reply containing the C6 literal and nothing else the
patterns match. -/
def c6Text : String :=
  "Sure! TOOL: bookAppointment(\"Jane Doe\",\"555-1111\",\"jane@x.com\",\"2025-06-02\",\"10:00\",[\"Haircut\"],45,30) is on its way."

/-- The head of a `take` with a positive count is the list's head. -/
theorem head?_take_of_pos {α : Type} (l : List α) (k : Nat) (hk : 1 ≤ k) :
    (l.take k).head? = l.head? := by
  cases l with
  | nil => simp
  | cons x xs =>
    cases k with
    | zero => omega
    | succ n => simp [List.take_succ_cons]

/-- C4: for a date present in the calendar, `check_availability` returns
exactly the filtered (unbooked) slot list when the duration is at most 30
minutes; for a longer duration it returns the first element of each
length-`ceil(d/30)` contiguous window of the filtered list, at indices
`0 .. len - ceil(d/30)` — windowing over list order, with no check of
chronological adjacency between the windowed entries — and the `available`
flag is true exactly when the returned slot list is non-empty. -/
theorem check_availability_windowing (calendar_data : List (String × DayData))
    (date : String) (duration_minutes : Int) (day_data : DayData)
    (h : dictLookup calendar_data date = some day_data) :
    ((duration_minutes ≤ 30 →
      (check_availability date duration_minutes calendar_data).available_slots =
        some (truly_available_of day_data)) ∧
     (30 < duration_minutes →
      (check_availability date duration_minutes calendar_data).available_slots =
        some ((List.range ((truly_available_of day_data).length + 1 -
            ((duration_minutes + 30 - 1) / 30).toNat)).filterMap
          (fun i => (truly_available_of day_data)[i]?))) ∧
     ((check_availability date duration_minutes calendar_data).available = some true ↔
      (check_availability date duration_minutes calendar_data).available_slots.getD []
        ≠ [])) := by
  unfold check_availability
  rw [h]
  dsimp only
  refine ⟨fun h30 => ?_, fun h30 => ?_, ?_⟩
  · rw [if_pos h30]
  · rw [if_neg (not_le.mpr h30)]
    congr 1
    apply List.filterMap_congr
    intro i hi
    rw [List.mem_range] at hi
    have hk1 : 1 ≤ ((duration_minutes + 30 - 1) / 30).toNat := by omega
    have hik : i + ((duration_minutes + 30 - 1) / 30).toNat ≤
        (truly_available_of day_data).length := by omega
    have hlen : (((truly_available_of day_data).drop i).take
        ((duration_minutes + 30 - 1) / 30).toNat).length =
        ((duration_minutes + 30 - 1) / 30).toNat := by
      simp only [List.length_take, List.length_drop]
      omega
    rw [if_pos hlen, head?_take_of_pos _ _ hk1, List.head?_drop]
  · generalize (if duration_minutes ≤ 30 then truly_available_of day_data
      else (List.range ((truly_available_of day_data).length + 1 -
          ((duration_minutes + 30 - 1) / 30).toNat)).filterMap
        (fun i =>
          if (((truly_available_of day_data).drop i).take
              ((duration_minutes + 30 - 1) / 30).toNat).length =
              ((duration_minutes + 30 - 1) / 30).toNat then
            (((truly_available_of day_data).drop i).take
              ((duration_minutes + 30 - 1) / 30).toNat).head?
          else none)) = s
    simp [List.length_pos]

/-- A one-day calendar with one booked slot, for the C4 witness. -/
def c4Cal : List (String × DayData) :=
  [("2025-06-02",
    { available_slots := some ["09:00", "09:30", "10:00", "10:30"],
      booked_slots := some ["09:30"] })]

/-- Witness for C4 at a 45-minute request: the filtered list is
`["09:00", "10:00", "10:30"]`, `ceil(45/30) = 2`, and the returned starts
are the first elements of the two windows. -/
theorem check_availability_windowing_witness :
    dictLookup c4Cal "2025-06-02" =
      some { available_slots := some ["09:00", "09:30", "10:00", "10:30"],
             booked_slots := some ["09:30"] } ∧
    (check_availability "2025-06-02" 45 c4Cal).available_slots =
      some ["09:00", "10:00"] ∧
    ((check_availability "2025-06-02" 45 c4Cal).available = some true ↔
      (check_availability "2025-06-02" 45 c4Cal).available_slots.getD [] ≠ []) := by
  refine ⟨rfl, ?_, (check_availability_windowing c4Cal "2025-06-02" 45 _ rfl).2.2⟩
  rw [(check_availability_windowing c4Cal "2025-06-02" 45 _ rfl).2.1 (by decide)]
  decide

/-- Looking up the booked date after `book_appointment`'s calendar update
finds the entry with the time appended to its `booked_slots`. -/
theorem dictLookup_book_update (cal : List (String × DayData)) (date time : String)
    (dd : DayData) (h : dictLookup cal date = some dd) :
    dictLookup (cal.map (fun entry =>
      if entry.1 = date then
        (entry.1,
          { entry.2 with booked_slots := some (entry.2.booked_slots.getD [] ++ [time]) })
      else entry)) date =
      some { dd with booked_slots := some (dd.booked_slots.getD [] ++ [time]) } := by
  induction cal with
  | nil => simp [dictLookup] at h
  | cons e rest ih =>
    unfold dictLookup at h
    by_cases hd : e.1 = date
    · rw [if_pos hd] at h
      injection h with h2
      subst h2
      simp only [List.map_cons, if_pos hd]
      unfold dictLookup
      rw [if_pos hd]
    · rw [if_neg hd] at h
      simp only [List.map_cons, if_neg hd]
      unfold dictLookup
      rw [if_neg hd]
      exact ih h

/-- C5: after a booking of `date`/`time` (always reported successful), an
immediate `check_availability` on the same date with a duration of at most
30 minutes returns a slot list that does not contain the just-booked time
(it is now in `booked_slots` and is filtered out), for any time not
previously booked on that date. -/
theorem book_then_check_excludes_booked_time
    (st : Store) (cn cp ce sv tp dm : PyVal) (date time draw : String) (d : Int)
    (hd : d ≤ 30)
    (hnew : ∀ e ∈ st.calendar, e.1 = date → time ∉ e.2.booked_slots.getD []) :
    time ∉ ((check_availability date d
      (book_appointment cn cp ce date time sv tp dm draw st).2.calendar
      ).available_slots.getD []) := by
  unfold book_appointment
  dsimp only
  cases hcase : dictLookup st.calendar date with
  | none =>
    rw [if_neg (by simp)]
    unfold check_availability
    rw [hcase]
    simp
  | some dd =>
    rw [if_pos (show (some dd).isSome = true from rfl)]
    unfold check_availability
    rw [dictLookup_book_update st.calendar date time dd hcase]
    dsimp only
    rw [if_pos hd]
    intro hmem
    rw [truly_available_of] at hmem
    have hmem2 := (List.mem_filter.mp hmem).2
    simp only [Option.getD_some] at hmem2
    have : time ∈ dd.booked_slots.getD [] ++ [time] :=
      List.mem_append_right _ (List.mem_singleton_self time)
    simp [this] at hmem2

/-- Witness for C5: booking `10:00` on the open one-day calendar and
re-checking the date's availability no longer offers `10:00`. -/
theorem book_then_check_excludes_booked_time_witness :
    ((30 : Int) ≤ 30) ∧
    (∀ e ∈ c2Store.calendar, e.1 = "2025-06-02" →
      "10:00" ∉ e.2.booked_slots.getD []) ∧
    "10:00" ∉ ((check_availability "2025-06-02" 30
      (book_appointment (PyVal.str "Jane") (PyVal.str "555-1111") (PyVal.str "jane@x.com")
        "2025-06-02" "10:00" (PyVal.str "Haircut") (PyVal.int 40) (PyVal.int 30)
        "0a1bcdef" c2Store).2.calendar).available_slots.getD []) :=
  ⟨by decide, by decide,
    book_then_check_excludes_booked_time c2Store (PyVal.str "Jane") (PyVal.str "555-1111")
      (PyVal.str "jane@x.com") (PyVal.str "Haircut") (PyVal.int 40) (PyVal.int 30)
      "2025-06-02" "10:00" "0a1bcdef" 30 (by decide) (by decide)⟩

/-- When every result renders without raising, the formatter loop
collects the per-result line lists in input order. -/
theorem render_all_ok (tool_results : List ExecResult) (lines : ExecResult → List String)
    (h : ∀ r ∈ tool_results, render_result r = Except.ok (lines r)) :
    render_all tool_results = Except.ok (tool_results.map lines).flatten := by
  induction tool_results with
  | nil => rfl
  | cons r rest ih =>
    unfold render_all
    rw [h r (List.mem_cons_self r rest), ih (fun x hx => h x (List.mem_cons_of_mem r hx))]
    rfl

/-- C9: the Result Formatter returns the fixed fallback sentence on an
empty result sequence; on a non-empty sequence whose members all render,
its output is the per-result rendered lines joined with single newlines in
input order; and a successful `check_availability` result renders at most
10 literal slot times, with an `... and N more times` suffix line exactly
when the slot list has more than 10 entries. -/
theorem process_tool_results_formatting :
    (process_tool_results [] =
      Except.ok "I didn't find any specific information to help you with.") ∧
    (∀ (tool_results : List ExecResult) (lines : ExecResult → List String),
      tool_results ≠ [] →
      (∀ r ∈ tool_results, render_result r = Except.ok (lines r)) →
      process_tool_results tool_results =
        Except.ok (String.intercalate "\n" (tool_results.map lines).flatten)) ∧
    (∀ res : ToolOutput, res.available.getD false = true →
      render_result { success := some true, tool_name := some "check_availability",
                      result := some res } =
        Except.ok (("Here are our available times for " ++ res.date.getD "" ++ " for a " ++
            toString (res.duration_minutes.getD 0) ++ "-minute appointment:")
          :: ((res.available_slots.getD []).take 10).map (fun slot => "- " ++ slot)
          ++ (if 10 < (res.available_slots.getD []).length then
                ["... and " ++ toString ((res.available_slots.getD []).length - 10) ++
                  " more times"]
              else [])
          ++ ["\nWhich time works best for you?"]) ∧
      ((res.available_slots.getD []).take 10).length ≤ 10) := by
  refine ⟨rfl, fun tool_results lines hne hall => ?_, fun res hres => ⟨?_, ?_⟩⟩
  · unfold process_tool_results
    rw [if_neg (by simpa using hne), render_all_ok tool_results lines hall]
    rfl
  · unfold render_result
    dsimp only
    rw [hres]
    rfl
  · rw [List.length_take]
    exact Nat.min_le_left _ _

/-- A failed tool result for the C9 witness. -/
def c9FailResult : ExecResult :=
  { success := some false, error := some "boom", tool_name := some "get_services" }

/-- A successful availability result with twelve slots, for the C9
witness. -/
def c9AvailOutput : ToolOutput :=
  { available := some true,
    available_slots := some ["09:00", "09:30", "10:00", "10:30", "11:00", "11:30",
      "12:00", "12:30", "13:00", "13:30", "14:00", "14:30"],
    duration_minutes := some 30,
    date := some "2025-06-02" }

/-- Witness for C9: the non-empty case joins the single failure line, and
the twelve-slot availability result renders ten slot lines plus the
`... and 2 more times` suffix. -/
theorem process_tool_results_formatting_witness :
    ([c9FailResult] ≠ []) ∧
    (∀ r ∈ [c9FailResult],
      render_result r = Except.ok ["Error with get_services: boom"]) ∧
    process_tool_results [c9FailResult] =
      Except.ok "Error with get_services: boom" ∧
    c9AvailOutput.available.getD false = true ∧
    render_result { success := some true, tool_name := some "check_availability",
                    result := some c9AvailOutput } =
      Except.ok ["Here are our available times for 2025-06-02 for a 30-minute appointment:",
                 "- 09:00", "- 09:30", "- 10:00", "- 10:30", "- 11:00", "- 11:30",
                 "- 12:00", "- 12:30", "- 13:00", "- 13:30",
                 "... and 2 more times",
                 "\nWhich time works best for you?"] := by
  refine ⟨by simp, ?_, ?_, rfl, ?_⟩
  · intro r hr
    rw [List.mem_singleton.mp hr]
    rfl
  · rw [process_tool_results_formatting.2.1 [c9FailResult]
      (fun _ => ["Error with get_services: boom"]) (by simp)
      (fun r hr => by rw [List.mem_singleton.mp hr]; rfl)]
    rfl
  · rw [(process_tool_results_formatting.2.2 c9AvailOutput rfl).1]
    rfl

/-- Witness for C6: on `c6Text` the two scans find exactly the fixed
invocation, and extraction produces the claimed eight coerced arguments. -/
theorem extract_tool_calls_book_literal_witness :
    refindall matchToolAt c6Text = [("bookAppointment", c6ArgString)] ∧
    refindall matchBracketAt c6Text = [] ∧
    extract_tool_calls c6Text =
      [{ tool_name := "bookAppointment",
         args := [PyVal.str "Jane Doe", PyVal.str "555-1111", PyVal.str "jane@x.com",
                  PyVal.str "2025-06-02", PyVal.str "10:00", PyVal.str "[\"Haircut\"]",
                  PyVal.int 45, PyVal.int 30] }] :=
  ⟨by decide, by decide, extract_tool_calls_book_literal c6Text (by decide) (by decide)⟩

end Receptionist
